import Mathlib

/-!
A verification development for the `GoogleSheetsClient` class of the
googlesheets-api-wrapper package (src/index.ts).  The embedding models the
three resilience components of the client — the bounded-retry execution
wrapper (`process_cycle` plus its `for (attempt = 0; attempt < MAX_RETRIES;
attempt++)` driver loops), the FIFO operation queue (`enqueue` /
`process_queue`), and the time-expiring authenticated-session cache
(`get_client`) — together with the construction interface (`Params`,
`get_instance`) and the pure helper `column_to_letter`.

Asynchronous JavaScript (Promises, `await`) is embedded by run-to-completion
semantics: an `async` unit of work is a value of `Except E V` (it either
resolves with a value or rejects with an error), and the serialized drain
loop is a pure function producing the trace of observable events in the
order the single-threaded event loop produces them.  Delays (`setTimeout`,
`wait`) have no observable effect on values or ordering and are elided.
-/

/-! ## Retry wrapper

The source (src/index.ts, lines 1472–1496 of the current revision) defines

```
private async process_cycle(operation, attempt, error_message) {
  try {
    return await operation(); // True (for write methods) or result data ...
  } catch (error) {
    ... if (attempt === this.MAX_RETRIES - 1) { ... throw error; }
    await wait(this.RETRY_DELAY);
    return false;
  }
}
```

and each retrying public method drives it with

```
for (attempt = 0; attempt < this.MAX_RETRIES; attempt++) {
  result = await this.process_cycle(operation, attempt, '...');
  if (result) break;
}
return result;
```

(`write_to_tab` uses the same loop but discards `result` and returns `true`).
The loop's `if (result)` test is JavaScript truthiness, so the embedding is
parametric in a truthiness function on the work's success values; the bare
`false` returned by `process_cycle` after a non-terminal failure is modelled
as `none`, an operation's own result `v` as `some v`.
-/

/-- Constant `MAX_RETRIES = 8` of the class (a `private readonly` field,
identical for every instance). -/
def MAX_RETRIES : Nat := 8

/-- Constant `RETRY_DELAY = 60000` (milliseconds) of the class. -/
def RETRY_DELAY : Nat := 60000

/-- Models one call `process_cycle(operation, attempt, error_message)` where
`outcome` is what `await operation()` does on this invocation: on success the
operation's value is returned (`some v`); on failure, if `attempt` is the last
allowed one (`MAX_RETRIES - 1`) the error is re-thrown, otherwise the cycle
waits `RETRY_DELAY` and returns the JavaScript `false` (modelled `none`). -/
def process_cycle {E V : Type} (outcome : Except E V) (attempt max_r : Nat) :
    Except E (Option V) :=
  match outcome with
  | .ok v => .ok (some v)
  | .error e => if attempt = max_r - 1 then .error e else .ok none

/-- JavaScript truthiness of a `process_cycle` result: the bare `false`
(`none`) is falsy, an operation value `v` is as truthy as `truthy v` says. -/
def cycle_truthy {V : Type} (truthy : V → Bool) : Option V → Bool
  | none => false
  | some v => truthy v

/-- Models the driver loop `for (attempt = 0; attempt < max_r; attempt++)
{ result = await process_cycle(operation, attempt, ...); if (result) break; }`
followed by `return result`.  `work i` is what `operation()` does on its
`i`-th invocation (0-based); `fuel` is the number of loop iterations still
allowed (`max_r - attempt`), so the recursion is structural.  The second
component of the result counts how many times `work` was invoked.  A thrown
terminal error propagates out of the loop as `Except.error`. -/
def retry_loop_go {E V : Type} (work : Nat → Except E V) (truthy : V → Bool)
    (max_r : Nat) : Nat → Nat → Option V → Except E (Option V) × Nat
  | 0, _, result => (.ok result, 0)
  | fuel + 1, attempt, _ =>
    match process_cycle (work attempt) attempt max_r with
    | .error e => (.error e, 1)
    | .ok r =>
      if cycle_truthy truthy r then (.ok r, 1)
      else
        let rest := retry_loop_go work truthy max_r fuel (attempt + 1) r
        (rest.1, rest.2 + 1)

/-- The driver loop run from `attempt = 0` with the full iteration budget, as
in `write_to_tab`, `read_entire_tab`, `append_row_v2`, `fill_cell_v2`,
`clear_tab` and `change_filename`. -/
def retry_loop {E V : Type} (work : Nat → Except E V) (truthy : V → Bool)
    (max_r : Nat) : Except E (Option V) × Nat :=
  retry_loop_go work truthy max_r max_r 0 none

lemma retry_loop_go_all_fail {E V : Type} (err : Nat → E) (truthy : V → Bool)
    (M : Nat) :
    ∀ fuel attempt result, fuel + attempt = M → 1 ≤ fuel →
      retry_loop_go (fun i => Except.error (err i)) truthy M fuel attempt result =
        (Except.error (err (M - 1)), fuel) := by
  intro fuel
  induction fuel with
  | zero => intro attempt result hsum h1; omega
  | succ f ih =>
    intro attempt result hsum h1
    rcases Nat.eq_zero_or_pos f with hf | hf
    · subst hf
      have ha : attempt = M - 1 := by omega
      simp [retry_loop_go, process_cycle, ha]
    · have ha : attempt ≠ M - 1 := by omega
      have hrec := ih (attempt + 1) none (by omega) (by omega)
      simp [retry_loop_go, process_cycle, ha, cycle_truthy, hrec]

/-- C1: for a unit of work that fails on every invocation, the retry driver
loop invokes the work exactly `max_attempts` times (with the code constant,
`MAX_RETRIES = 8`), and the failure observed on the final attempt — attempt
`max_attempts - 1` — is the one propagated to the caller, unwrapped. -/
theorem retry_always_fails_runs_max_attempts {E V : Type} (err : Nat → E)
    (truthy : V → Bool) (M : Nat) (hM : 1 ≤ M) :
    retry_loop (fun i => Except.error (err i)) truthy M =
      (Except.error (err (M - 1)), M) :=
  retry_loop_go_all_fail err truthy M M 0 none (by omega) hM

/-- Witness for C1: with the code's bound of 8 attempts and a work failing
every time with a distinct error, the work runs 8 times and the 8th error
(index 7) is the one surfaced. -/
theorem retry_always_fails_runs_max_attempts_witness :
    1 ≤ 8 ∧
      retry_loop (fun i => (Except.error i : Except Nat Unit)) (fun _ => true) 8 =
        (Except.error 7, 8) :=
  ⟨by decide,
    retry_always_fails_runs_max_attempts (fun i => i) (fun _ => true) 8 (by decide)⟩

lemma retry_loop_go_success {E V : Type} (work : Nat → Except E V)
    (truthy : V → Bool) (M j : Nat) (v : V) (hj : j < M)
    (hfail : ∀ i, i < j → ∃ e, work i = Except.error e)
    (hsucc : work j = Except.ok v) (htrue : truthy v = true) :
    ∀ fuel attempt result, fuel + attempt = M → attempt ≤ j →
      retry_loop_go work truthy M fuel attempt result =
        (Except.ok (some v), j - attempt + 1) := by
  intro fuel
  induction fuel with
  | zero => intro attempt result hsum hle; omega
  | succ f ih =>
    intro attempt result hsum hle
    rcases Nat.lt_or_ge attempt j with hlt | hge
    · obtain ⟨e, he⟩ := hfail attempt hlt
      have ha : attempt ≠ M - 1 := by omega
      have hrec := ih (attempt + 1) none (by omega) (by omega)
      have harith : j - attempt + 1 = (j - (attempt + 1) + 1) + 1 := by omega
      simp [retry_loop_go, he, process_cycle, ha, cycle_truthy, hrec, harith]
    · have haj : attempt = j := Nat.le_antisymm hle hge
      subst haj
      simp [retry_loop_go, hsucc, process_cycle, cycle_truthy, htrue]

/-- C7 amended: for a unit of work that fails on its first `j` invocations and
succeeds on invocation `j + 1` with a truthy value (for example `true` or a
data array, which is what every retried operation of the class returns), the
driver loop returns that success and the work is invoked exactly `j + 1`
times; on a truthy success the loop breaks immediately.  (The unamended
claim's "whatever value the work returned" fails: the loop tests JavaScript
truthiness of the result, so a falsy success is retried — see the
counterexample.) -/
theorem retry_success_truthy_runs_k_attempts {E V : Type}
    (work : Nat → Except E V) (truthy : V → Bool) (M j : Nat) (v : V)
    (hj : j < M)
    (hfail : ∀ i, i < j → ∃ e, work i = Except.error e)
    (hsucc : work j = Except.ok v) (htrue : truthy v = true) :
    retry_loop work truthy M = (Except.ok (some v), j + 1) := by
  have h := retry_loop_go_success work truthy M j v hj hfail hsucc htrue
    M 0 none (by omega) (by omega)
  simpa using h

/-- Witness for C7 (amended): a work failing on invocations 1–2 and succeeding
on invocation 3 with the truthy value 42, under a bound of 5 attempts, returns
that success after exactly 3 invocations. -/
theorem retry_success_truthy_runs_k_attempts_witness :
    2 < 5 ∧
      retry_loop (fun i => if i < 2 then (Except.error i : Except Nat Nat)
          else Except.ok 42) (fun _ => true) 5 =
        (Except.ok (some 42), 3) :=
  ⟨by decide,
    retry_success_truthy_runs_k_attempts _ _ 5 2 42 (by decide)
      (fun i hi => ⟨i, if_pos hi⟩) (if_neg (by decide)) rfl⟩

/-- Counterexample to C7 as stated: a unit of work that succeeds on its very
first invocation, but with the falsy value `false`, is invoked 8 times (the
full `MAX_RETRIES` budget), not once — the driver loop `if (result) break`
breaks only on truthy results, so a falsy success is silently re-run. -/
theorem retry_falsy_success_counterexample :
    (retry_loop (fun _ => (Except.ok false : Except Unit Bool)) (fun b => b) 8).2
        = 8 ∧
      (retry_loop (fun _ => (Except.ok false : Except Unit Bool)) (fun b => b) 8).2
        ≠ 1 := by
  decide

/-! ## Operation queue

The source (src/index.ts, lines 874–898) defines

```
private async process_queue() {
  if (this.is_processing) return;
  this.is_processing = true;
  while (this.queue.length > 0) {
    const item = this.queue.shift()!;
    try {
      const result = await item.operation();
      item.resolve(result);
    } catch (error) {
      item.reject(error);
    }
    await new Promise((resolve) => setTimeout(resolve, 100));
  }
  this.is_processing = false;
}

private enqueue<T>(operation) {
  return new Promise((resolve, reject) => {
    this.queue.push({ operation, resolve, reject });
    this.process_queue();
  });
}
```

A queued item is modelled by the outcome its operation produces when the
drain loop finally runs it (`Except E V`).  The drain loop is modelled as the
trace of observable events it emits, in the order the single-threaded event
loop produces them: for each item, first a `started` event (the call
`item.operation()`), then a `resolved`/`rejected` event (the delivery of that
item's outcome to its promise).  The inter-item 100 ms pause affects no
value and no ordering and is elided from the trace.
-/

/-- Constant inter-item delay of the drain loop, milliseconds (the literal
`100` in `setTimeout(resolve, 100)`). -/
def QUEUE_DELAY : Nat := 100

/-- Observable events of the drain loop: item `idx`'s work is started; item
`idx`'s promise is resolved with a value; item `idx`'s promise is rejected
with an error. -/
inductive QueueEvent (E V : Type) where
  | started (idx : Nat)
  | resolved (idx : Nat) (value : V)
  | rejected (idx : Nat) (error : E)
deriving DecidableEq

/-- Delivery of one item's outcome: `item.resolve(result)` on success,
`item.reject(error)` on failure (the `try`/`catch` around `await
item.operation()`). -/
def settle {E V : Type} (idx : Nat) (outcome : Except E V) : QueueEvent E V :=
  match outcome with
  | .ok v => .resolved idx v
  | .error e => .rejected idx e

/-- The event trace of the `while (this.queue.length > 0)` drain loop over the
items currently queued, numbering them from `idx`: each iteration shifts the
head item, starts its work, settles its promise with the work's outcome, and
only then proceeds to the next item. -/
def process_items {E V : Type} (idx : Nat) :
    List (Except E V) → List (QueueEvent E V)
  | [] => []
  | item :: rest =>
    .started idx :: settle idx item :: process_items (idx + 1) rest

lemma process_items_length {E V : Type} (idx : Nat)
    (items : List (Except E V)) :
    (process_items idx items).length = 2 * items.length := by
  induction items generalizing idx with
  | nil => simp [process_items]
  | cons item rest ih => simp [process_items, ih]; omega

lemma process_items_get_start {E V : Type} (items : List (Except E V)) :
    ∀ idx k o, items.get? k = some o →
      (process_items idx items).get? (2 * k) = some (.started (idx + k)) := by
  induction items with
  | nil => intro idx k o h; simp at h
  | cons item rest ih =>
    intro idx k o h
    match k with
    | 0 => simp [process_items]
    | k + 1 =>
      have h2 : 2 * (k + 1) = 2 * k + 1 + 1 := by omega
      have hidx : idx + (k + 1) = idx + 1 + k := by omega
      rw [h2, hidx]
      simp only [process_items, List.get?_cons_succ]
      exact ih (idx + 1) k o (by simpa using h)

lemma process_items_get_settle {E V : Type} (items : List (Except E V)) :
    ∀ idx k o, items.get? k = some o →
      (process_items idx items).get? (2 * k + 1) = some (settle (idx + k) o) := by
  induction items with
  | nil => intro idx k o h; simp at h
  | cons item rest ih =>
    intro idx k o h
    match k with
    | 0 =>
      simp at h
      simp [process_items, h]
    | k + 1 =>
      have h2 : 2 * (k + 1) + 1 = 2 * k + 1 + 1 + 1 := by omega
      have hidx : idx + (k + 1) = idx + 1 + k := by omega
      rw [h2, hidx]
      simp only [process_items, List.get?_cons_succ]
      exact ih (idx + 1) k o (by simpa using h)

/-- C2: the drain loop processes submissions strictly in submission order —
item `i`'s work is started at trace position `2i`, its outcome is delivered
at position `2i + 1`, and the next item's work is started only afterwards at
position `2i + 2`; hence for any sequence of submissions the outcomes are
delivered in submission order, regardless of the individual outcomes. -/
theorem process_queue_fifo {E V : Type} (items : List (Except E V))
    (i : Nat) (oi oj : Except E V)
    (hi : items.get? i = some oi) (hj : items.get? (i + 1) = some oj) :
    (process_items 0 items).get? (2 * i) = some (.started i) ∧
      (process_items 0 items).get? (2 * i + 1) = some (settle i oi) ∧
      (process_items 0 items).get? (2 * (i + 1)) = some (.started (i + 1)) ∧
      2 * i + 1 < 2 * (i + 1) := by
  refine ⟨?_, ?_, ?_, by omega⟩
  · simpa using process_items_get_start items 0 i oi hi
  · simpa using process_items_get_settle items 0 i oi hi
  · simpa using process_items_get_start items 0 (i + 1) oj hj

/-- Witness for C2: three submissions with varying outcomes; item 0's outcome
is delivered (position 1) before item 1's work is started (position 2). -/
theorem process_queue_fifo_witness :
    ([Except.ok 10, Except.error "boom", Except.ok 30].get? 0
        = some (Except.ok 10) ∧
      [Except.ok 10, Except.error "boom", Except.ok 30].get? 1
        = some (Except.error "boom")) ∧
      ((process_items 0 [Except.ok 10, Except.error "boom", Except.ok 30]).get? 0
          = some (.started 0) ∧
        (process_items 0 [Except.ok 10, Except.error "boom", Except.ok 30]).get? 1
          = some (.resolved 0 10) ∧
        (process_items 0 [Except.ok 10, Except.error "boom", Except.ok 30]).get? 2
          = some (.started 1) ∧
        2 * 0 + 1 < 2 * (0 + 1)) :=
  ⟨⟨rfl, rfl⟩,
    process_queue_fifo [Except.ok 10, Except.error "boom", Except.ok 30]
      0 (Except.ok 10) (Except.error "boom") rfl rfl⟩

/-- C6: failure of one queued item is isolated to that item.  If item `j`'s
work fails with error `e`, the trace rejects exactly item `j`'s promise with
`e` (position `2j + 1`); any other item `i` whose work succeeds with `v` is
still resolved with `v` at its own position `2i + 1`; the drain loop does not
stop — the trace covers all `2n` events of the `n` submitted items; and an
item submitted after the failed one is settled after it. -/
theorem process_queue_failure_isolation {E V : Type}
    (items : List (Except E V)) (j i : Nat) (e : E) (v : V)
    (hj : items.get? j = some (Except.error e))
    (hi : items.get? i = some (Except.ok v)) :
    (process_items 0 items).get? (2 * j + 1) = some (.rejected j e) ∧
      (process_items 0 items).get? (2 * i + 1) = some (.resolved i v) ∧
      (process_items 0 items).length = 2 * items.length ∧
      (j < i → 2 * j + 1 < 2 * i + 1) := by
  refine ⟨?_, ?_, process_items_length 0 items, by omega⟩
  · simpa [settle] using process_items_get_settle items 0 j _ hj
  · simpa [settle] using process_items_get_settle items 0 i _ hi

/-- Witness for C6: of three submissions the second permanently fails; item 1
is rejected with its own error, item 2 still resolves afterwards, and the
trace covers all three items. -/
theorem process_queue_failure_isolation_witness :
    ([Except.ok 10, Except.error "boom", Except.ok 30].get? 1
        = some (Except.error "boom") ∧
      [Except.ok 10, Except.error "boom", Except.ok 30].get? 2
        = some (Except.ok 30)) ∧
      ((process_items 0 [Except.ok 10, Except.error "boom", Except.ok 30]).get? 3
          = some (.rejected 1 "boom") ∧
        (process_items 0 [Except.ok 10, Except.error "boom", Except.ok 30]).get? 5
          = some (.resolved 2 30) ∧
        (process_items 0
            [Except.ok 10, Except.error "boom", Except.ok 30]).length = 6 ∧
        (1 < 2 → 2 * 1 + 1 < 2 * 2 + 1)) :=
  ⟨⟨rfl, rfl⟩,
    process_queue_failure_isolation
      [Except.ok 10, Except.error "boom", Except.ok 30] 1 2 "boom" 30 rfl rfl⟩

/-- The queue-related mutable state of a `GoogleSheetsClient` instance: the
pending items (`private queue: QueueItem[] = []`), the drain-loop guard flag
(`private is_processing = false`), the trace of events delivered so far, and
the number of items already processed (used to number subsequent items). -/
structure QueueState (E V : Type) where
  queue : List (Except E V)
  is_processing : Bool
  delivered : List (QueueEvent E V)
  processed : Nat

/-- Models a call of `process_queue()`.  The synchronous prefix `if
(this.is_processing) return; this.is_processing = true;` runs atomically
under JavaScript run-to-completion semantics (there is no `await` between the
check and the set), so a call made while a drain loop is active returns at
once and changes nothing.  Otherwise the drain loop runs the pending items to
completion in FIFO order, appending their events to the trace, and finally
clears the flag (`this.is_processing = false`). -/
def process_queue {E V : Type} (s : QueueState E V) : QueueState E V :=
  if s.is_processing then s
  else
    { queue := []
      is_processing := false
      delivered := s.delivered ++ process_items s.processed s.queue
      processed := s.processed + s.queue.length }

/-- Models `enqueue(operation)`: push the item at the tail of the queue, then
invoke `process_queue()` (which is a no-op when a drain loop is already
active, and otherwise starts draining). -/
def enqueue {E V : Type} (s : QueueState E V) (op : Except E V) :
    QueueState E V :=
  process_queue { s with queue := s.queue ++ [op] }

/-- C5: at most one drain loop is active per queue instance — invoking
`process_queue` while `is_processing` is true is a no-op: it returns
immediately, changes no state, and processes no item, so a second drain loop
never starts while one is active. -/
theorem process_queue_reentrant_noop {E V : Type} (s : QueueState E V)
    (h : s.is_processing = true) : process_queue s = s := by
  simp [process_queue, h]

/-- Witness for C5: a state with an active drain loop and a pending item is
left untouched by a re-entrant `process_queue` call. -/
theorem process_queue_reentrant_noop_witness :
    (QueueState.is_processing
        ⟨[(Except.ok 5 : Except String Nat)], true, [], 3⟩ = true) ∧
      process_queue ⟨[(Except.ok 5 : Except String Nat)], true, [], 3⟩ =
        ⟨[Except.ok 5], true, [], 3⟩ :=
  ⟨rfl, process_queue_reentrant_noop ⟨[Except.ok 5], true, [], 3⟩ rfl⟩

/-! ## Session cache

The source (src/index.ts, lines 824–872) keeps

```
private sheets: sheets_v4.Sheets | null = null;
private last_init_time = 0;
private readonly REFRESH_INTERVAL = 50 * 60 * 1000; // 50 minutes

private async get_client(): Promise<sheets_v4.Sheets> {
  const now = Date.now();
  if (!this.sheets || now - this.last_init_time > this.REFRESH_INTERVAL) {
    this.sheets = await this.init_client();
    this.last_init_time = now;
  }
  return this.sheets;
}
```

`init_client()` builds a brand-new authenticated handle on every call; the
embedding numbers handles with a counter (`next_handle`), so the handle
produced by a refresh is distinct from every handle produced before, and
counts authentication exchanges in `auth_count`.  Timestamps are integers
(milliseconds), as `Date.now()` values are.
-/

/-- Constant `REFRESH_INTERVAL = 50 * 60 * 1000` (50 minutes in
milliseconds), the freshness window of the cached handle. -/
def REFRESH_INTERVAL : Int := 50 * 60 * 1000

/-- The session-cache state: the cached handle if any (`sheets`, initially
`null`), the time the cache was last (re)initialized (`last_init_time`), the
id the next authentication will hand out, and the number of authentication
exchanges performed so far. -/
structure ClientState where
  sheets : Option Nat
  last_init_time : Int
  next_handle : Nat
  auth_count : Nat
deriving DecidableEq

/-- Models `get_client()` called at time `now`: if nothing is cached or the
cache is older than the freshness window, perform one authentication exchange
(`init_client`), cache the new handle wholesale, reset the age timer, and
return it; otherwise return the cached handle with no state change. -/
def get_client (s : ClientState) (now : Int) : Nat × ClientState :=
  match s.sheets with
  | none =>
    (s.next_handle,
      { sheets := some s.next_handle, last_init_time := now
        next_handle := s.next_handle + 1, auth_count := s.auth_count + 1 })
  | some h =>
    if now - s.last_init_time > REFRESH_INTERVAL then
      (s.next_handle,
        { sheets := some s.next_handle, last_init_time := now
          next_handle := s.next_handle + 1, auth_count := s.auth_count + 1 })
    else (h, s)

/-- C3: freshness of the session cache.  For a client state holding a cached
handle `h` authenticated at `last_init_time` (well-formed: `h` predates the
ids still to be handed out): two `get_client` calls within the freshness
window both return the same cached handle and leave the state — in particular
the authentication count — untouched; a call made once more than the window
has elapsed performs exactly one re-authentication, returns a handle distinct
from the cached one, replaces the cache wholesale, and resets the age timer
to the time of the call. -/
theorem get_client_freshness (s : ClientState) (h : Nat)
    (now1 now2 now3 : Int)
    (hc : s.sheets = some h) (hwf : h < s.next_handle)
    (h1 : now1 - s.last_init_time ≤ REFRESH_INTERVAL)
    (h2 : now2 - s.last_init_time ≤ REFRESH_INTERVAL)
    (h3 : now3 - s.last_init_time > REFRESH_INTERVAL) :
    get_client s now1 = (h, s) ∧
      get_client (get_client s now1).2 now2 = (h, s) ∧
      (get_client s now3).1 ≠ h ∧
      (get_client s now3).2 =
        { sheets := some s.next_handle, last_init_time := now3
          next_handle := s.next_handle + 1, auth_count := s.auth_count + 1 } := by
  have hfresh1 : get_client s now1 = (h, s) := by
    simp [get_client, hc, not_lt.mpr h1]
  refine ⟨hfresh1, ?_, ?_, ?_⟩
  · rw [hfresh1]
    simp [get_client, hc, not_lt.mpr h2]
  · simp [get_client, hc, h3]
    omega
  · simp [get_client, hc, h3]

/-- Witness for C3: a client whose handle 0 was cached at time 0; calls at
1000 ms and 2000 ms return handle 0 unchanged, while a call at 3 000 001 ms
(just past the 50-minute window) re-authenticates once, returns the distinct
handle 1, and resets the timer. -/
theorem get_client_freshness_witness :
    (ClientState.sheets ⟨some 0, 0, 1, 1⟩ = some 0 ∧ 0 < 1 ∧
        (1000 : Int) - 0 ≤ REFRESH_INTERVAL ∧
        (2000 : Int) - 0 ≤ REFRESH_INTERVAL ∧
        (3000001 : Int) - 0 > REFRESH_INTERVAL) ∧
      (get_client ⟨some 0, 0, 1, 1⟩ 1000 = (0, ⟨some 0, 0, 1, 1⟩) ∧
        get_client (get_client ⟨some 0, 0, 1, 1⟩ 1000).2 2000 =
          (0, ⟨some 0, 0, 1, 1⟩) ∧
        (get_client ⟨some 0, 0, 1, 1⟩ 3000001).1 ≠ 0 ∧
        (get_client ⟨some 0, 0, 1, 1⟩ 3000001).2 = ⟨some 1, 3000001, 2, 2⟩) :=
  ⟨⟨rfl, by decide, by decide, by decide, by decide⟩,
    get_client_freshness ⟨some 0, 0, 1, 1⟩ 0 1000 2000 3000001 rfl
      (by decide) (by decide) (by decide) (by decide)⟩

/-! ## Construction interface and singleton

The source defines

```
type Params = {
  keyFilePath: string;
  isSilent?: boolean;
  isDebug?: boolean;
};

private constructor({ keyFilePath, isSilent, isDebug }: Params) {
  this.keyFilePath = keyFilePath;
  this.is_silent = isSilent || false;
  this.is_debug = isDebug || false;
}

public static get_instance({ keyFilePath, isSilent }: Params): GoogleSheetsClient {
  if (!GoogleSheetsClient.instance) {
    GoogleSheetsClient.instance = new GoogleSheetsClient({ keyFilePath, isSilent });
  }
  return GoogleSheetsClient.instance;
}
```

Optional fields are `Option Bool` (absent = `none`); `isSilent || false`
collapses an absent or `false` value to `false`.  Note `get_instance`
destructures only `keyFilePath` and `isSilent`, so the `isDebug` it was
handed never reaches the constructor.  `REFRESH_INTERVAL`, `MAX_RETRIES`,
`RETRY_DELAY` and the 100 ms inter-item pause are `private readonly`
class constants (and a literal), not constructor inputs.
-/

/-- The construction parameter type `Params` — exactly three fields, two of
them optional. -/
structure Params where
  keyFilePath : String
  isSilent : Option Bool
  isDebug : Option Bool
deriving DecidableEq

/-- The per-instance configuration the private constructor stores. -/
structure GoogleSheetsClient where
  keyFilePath : String
  is_silent : Bool
  is_debug : Bool
deriving DecidableEq

/-- Models `new GoogleSheetsClient(params)`. -/
def mk_client (p : Params) : GoogleSheetsClient :=
  { keyFilePath := p.keyFilePath
    is_silent := p.isSilent.getD false
    is_debug := p.isDebug.getD false }

/-- The freshness window a constructed client effectively uses — the class
constant, whatever the construction parameters were. -/
def client_refresh_interval (_ : GoogleSheetsClient) : Int := REFRESH_INTERVAL

/-- The retry bound a constructed client's driver loops effectively use — the
class constant `MAX_RETRIES`, whatever the construction parameters were. -/
def client_max_retries (_ : GoogleSheetsClient) : Nat := MAX_RETRIES

/-- The retry delay a constructed client effectively uses — the class
constant `RETRY_DELAY`, whatever the construction parameters were. -/
def client_retry_delay (_ : GoogleSheetsClient) : Nat := RETRY_DELAY

/-- The inter-item pause a constructed client's drain loop effectively uses —
the literal 100 ms, whatever the construction parameters were. -/
def client_queue_delay (_ : GoogleSheetsClient) : Nat := QUEUE_DELAY

/-- C8 as stated (rendered on the code's construction interface): some
construction input yields a client whose retry machinery uses a bound other
than the fixed default 8 — that is, the caller can actually set the maximum
retry attempts (the spec's §8 test would set it to 3).  The counterexample
theorem refutes this. -/
def construction_can_set_retry_bound : Prop :=
  ∃ p : Params, client_max_retries (mk_client p) ≠ 8

/-- Counterexample to C8: no construction input can change the retry bound —
`Params` carries only the credential path, the silence flag and the debug
flag, and the constructor stores nothing else; `MAX_RETRIES` (like
`REFRESH_INTERVAL`, `RETRY_DELAY` and the 100 ms pause) is a fixed class
constant every instance uses. -/
theorem construction_cannot_set_retry_bound :
    ¬ construction_can_set_retry_bound := fun h =>
  match h with
  | ⟨_, hp⟩ => hp rfl

/-- C8 amended: the construction interface accepts only the credential
reference, a silence flag and a debug flag; the freshness window, the maximum
retry attempts, the retry delay and the inter-item delay are fixed constants
— 50 minutes, 8 attempts, 60 seconds and 100 ms respectively — that no
construction parameter can change. -/
theorem construction_fixed_policy (p : Params) :
    mk_client p = ⟨p.keyFilePath, p.isSilent.getD false, p.isDebug.getD false⟩ ∧
      client_refresh_interval (mk_client p) = 50 * 60 * 1000 ∧
      client_max_retries (mk_client p) = 8 ∧
      client_retry_delay (mk_client p) = 60000 ∧
      client_queue_delay (mk_client p) = 100 :=
  ⟨rfl, rfl, rfl, rfl, rfl⟩

/-- Models one call of the static `get_instance(params)` against the current
value of the static field `GoogleSheetsClient.instance` (`none` before the
first call).  Only `keyFilePath` and `isSilent` are destructured from the
argument, so the constructor is invoked with `isDebug` absent; when an
instance already exists it is returned as-is and the argument is ignored. -/
def get_instance (inst : Option GoogleSheetsClient) (p : Params) :
    GoogleSheetsClient × Option GoogleSheetsClient :=
  match inst with
  | none =>
    let c := mk_client { keyFilePath := p.keyFilePath, isSilent := p.isSilent,
                         isDebug := none }
    (c, some c)
  | some c => (c, some c)

/-- Runs a sequence of `get_instance` calls, threading the static `instance`
field, and collects the returned clients. -/
def run_get_instance :
    Option GoogleSheetsClient → List Params →
      List GoogleSheetsClient × Option GoogleSheetsClient
  | inst, [] => ([], inst)
  | inst, p :: rest =>
    let r := get_instance inst p
    let t := run_get_instance r.2 rest
    (r.1 :: t.1, t.2)

lemma run_get_instance_some (c : GoogleSheetsClient) (ps : List Params) :
    run_get_instance (some c) ps = (List.replicate ps.length c, some c) := by
  induction ps with
  | nil => simp [run_get_instance]
  | cons p rest ih => simp [run_get_instance, get_instance, ih, List.replicate]

/-- C9: at most one `GoogleSheetsClient` instance ever exists per process.
Starting from an unset static field, the first `get_instance` call constructs
the instance from its own parameters (with `isDebug` dropped by the
destructuring), and every later call — whatever parameters it is given —
returns that very same instance and leaves the static field unchanged. -/
theorem get_instance_singleton (p : Params) (rest : List Params) :
    run_get_instance none (p :: rest) =
      (List.replicate (rest.length + 1)
          (mk_client ⟨p.keyFilePath, p.isSilent, none⟩),
        some (mk_client ⟨p.keyFilePath, p.isSilent, none⟩)) := by
  simp [run_get_instance, get_instance, run_get_instance_some, List.replicate]

/-! ## Public-operation dispatch

Each public method of the class either (a) builds its closure and passes it
to `this.enqueue(operation)` unless a truthy `force` argument makes it call
`operation()` directly, (b) drives the closure through the
`process_cycle` retry loop without ever touching the queue, or (c) calls the
API directly with neither queue nor retry loop.  The table below transcribes,
method by method, which of the three each one does (deprecated alias methods
delegate: `read_sheet` to `read_tab`, `write_to_sheet` to `write_to_tab`,
`read_entire_sheet` to `read_entire_tab`; `write_to_tab`, `read_entire_tab`
and `clear_tab` accept a deprecated `force` argument but only print a warning
for it).
-/

/-- How an invocation is executed. -/
inductive Route where
  | queued
  | retried
  | direct
deriving DecidableEq

/-- The externally-invocable operations of the class (the public async
surface; the pure helper `column_to_letter` and the static `get_instance`
perform no remote call and are not listed). -/
inductive PublicOp where
  | read_tab
  | read_tab_by_name
  | read_sheet
  | write_to_tab
  | write_to_sheet
  | read_entire_tab
  | read_entire_sheet
  | append_row
  | append_row_v2
  | get_cell
  | fill_cell
  | fill_cell_v2
  | clear_tab
  | get_row_by_column_value
  | get_rows_map_of_values
  | get_column_letter_map_of_row
  | get_filename
  | change_filename
  | check_read_permissions
  | check_read_write_permissions
deriving DecidableEq, Fintype

/-- Which route each public operation takes when invoked with the given
`force` flag (`false` also covers an absent flag; for operations without a
`force` parameter, or with a deprecated ignored one, the flag has no
effect). -/
def dispatch : PublicOp → Bool → Route
  | .read_tab, force => if force then .direct else .queued
  | .read_tab_by_name, force => if force then .direct else .queued
  | .read_sheet, force => if force then .direct else .queued
  | .write_to_tab, _ => .retried
  | .write_to_sheet, _ => .retried
  | .read_entire_tab, _ => .retried
  | .read_entire_sheet, _ => .retried
  | .append_row, force => if force then .direct else .queued
  | .append_row_v2, _ => .retried
  | .get_cell, force => if force then .direct else .queued
  | .fill_cell, force => if force then .direct else .queued
  | .fill_cell_v2, _ => .retried
  | .clear_tab, _ => .retried
  | .get_row_by_column_value, force => if force then .direct else .queued
  | .get_rows_map_of_values, force => if force then .direct else .queued
  | .get_column_letter_map_of_row, force => if force then .direct else .queued
  | .get_filename, _ => .direct
  | .change_filename, _ => .retried
  | .check_read_permissions, _ => .direct
  | .check_read_write_permissions, _ => .direct

/-- Counterexample to C4: several public operations invoked without a `force`
flag are not enqueued — `write_to_tab`, `append_row_v2` and `clear_tab` (the
very operations the claim cites) run their work directly through the retry
loop, and `get_filename` calls the API directly, all bypassing the queue. -/
theorem dispatch_not_all_queued :
    dispatch .write_to_tab false ≠ .queued ∧
      dispatch .append_row_v2 false ≠ .queued ∧
      dispatch .clear_tab false ≠ .queued ∧
      dispatch .get_filename false ≠ .queued := by
  decide

/-- C4 amended: exactly nine public operations are enqueued when invoked
without the `force` flag — `read_tab`, `read_tab_by_name`, `read_sheet`,
`append_row`, `get_cell`, `fill_cell`, `get_row_by_column_value`,
`get_rows_map_of_values` and `get_column_letter_map_of_row`; the `_v2`
methods, `write_to_tab`, `read_entire_tab`, `clear_tab`, `change_filename`
and the filename/permission probes never use the queue, and a truthy `force`
bypasses it for the nine that do. -/
theorem dispatch_queued_characterization :
    ∀ (op : PublicOp) (force : Bool),
      dispatch op force = .queued ↔
        (force = false ∧
          (op = .read_tab ∨ op = .read_tab_by_name ∨ op = .read_sheet ∨
            op = .append_row ∨ op = .get_cell ∨ op = .fill_cell ∨
            op = .get_row_by_column_value ∨ op = .get_rows_map_of_values ∨
            op = .get_column_letter_map_of_row)) := by
  decide

/-! ## Column-letter conversion

The source (src/index.ts, lines 1461–1470) defines the public pure method

```
public column_to_letter(column: number): string {
  let temp,
    letter = '';
  while (column > 0) {
    temp = (column - 1) % 26;
    letter = String.fromCharCode(temp + 65) + letter;
    column = (column - temp - 1) / 26;
  }
  return letter;
}
```

For an integer argument every quantity stays integral: with `column ≥ 1`,
`(column - 1) % 26` is the JavaScript remainder of a non-negative number,
which coincides with the mathematical (Euclidean) one, and
`column - temp - 1` is an exact multiple of 26, so the division is exact.
The embedding therefore uses `Int` with Euclidean `%` and `/`, and builds the
accumulator string as a list of characters (prepending, as
`String.fromCharCode(temp + 65) + letter` does).
-/

lemma column_to_letter_measure (column : Int) (h : 0 < column) :
    ((column - (column - 1) % 26 - 1) / 26).toNat < column.toNat := by
  omega

/-- The `while (column > 0)` loop of `column_to_letter`, with the string
accumulator `letter` as a character list. -/
def column_to_letter_go (column : Int) (letter : List Char) : List Char :=
  if h : 0 < column then
    let temp := (column - 1) % 26
    column_to_letter_go ((column - temp - 1) / 26)
      (Char.ofNat (temp.toNat + 65) :: letter)
  else letter
termination_by column.toNat
decreasing_by exact column_to_letter_measure column h

/-- Models `column_to_letter(column)` for an integral argument. -/
def column_to_letter (column : Int) : String :=
  String.mk (column_to_letter_go column [])

/-- Reads a string of letters back as a bijective base-26 numeral
(`A` = 1, …, `Z` = 26, so `AA` = 27). -/
def from_bijective (s : List Char) : Nat :=
  s.foldl (fun acc c => acc * 26 + (c.toNat - 64)) 0

/-- Tests that a character is one of the uppercase letters `A`–`Z`. -/
def is_upper_alpha (c : Char) : Bool :=
  decide (65 ≤ c.toNat) && decide (c.toNat ≤ 90)

lemma char_code_letter (k : Nat) (hk : k ≤ 25) :
    (Char.ofNat (k + 65)).toNat = k + 65 := by
  interval_cases k <;> decide

lemma from_bijective_acc (t : List Char) :
    ∀ acc : Nat,
      t.foldl (fun a c => a * 26 + (c.toNat - 64)) acc =
        acc * 26 ^ t.length + from_bijective t := by
  induction t with
  | nil => intro acc; simp [from_bijective]
  | cons c t ih =>
    intro acc
    have h1 := ih (acc * 26 + (c.toNat - 64))
    have h2 := ih (c.toNat - 64)
    simp only [List.foldl_cons, List.length_cons, from_bijective, Nat.zero_mul,
      Nat.zero_add] at h1 h2 ⊢
    rw [h1, h2]
    ring

lemma column_to_letter_go_value (column : Int) (letter : List Char)
    (h0 : 0 ≤ column) :
    from_bijective (column_to_letter_go column letter) =
      column.toNat * 26 ^ letter.length + from_bijective letter := by
  rw [column_to_letter_go]
  split
  · next hpos =>
    have htemp : (0 : Int) ≤ (column - 1) % 26 ∧ (column - 1) % 26 ≤ 25 := by
      omega
    have hq : (0 : Int) ≤ (column - (column - 1) % 26 - 1) / 26 := by omega
    have hrec := column_to_letter_go_value ((column - (column - 1) % 26 - 1) / 26)
      (Char.ofNat (((column - 1) % 26).toNat + 65) :: letter) hq
    rw [hrec]
    have hch := char_code_letter ((column - 1) % 26).toNat (by omega)
    simp only [List.length_cons, from_bijective, List.foldl_cons, Nat.zero_mul,
      Nat.zero_add, hch]
    rw [from_bijective_acc]
    have hval : (((column - 1) % 26).toNat + 65) - 64 =
        ((column - 1) % 26).toNat + 1 := by omega
    rw [hval]
    have hdigit : ((column - (column - 1) % 26 - 1) / 26).toNat * 26 +
        (((column - 1) % 26).toNat + 1) = column.toNat := by omega
    calc ((column - (column - 1) % 26 - 1) / 26).toNat * 26 ^ (letter.length + 1)
          + ((((column - 1) % 26).toNat + 1) * 26 ^ letter.length
            + from_bijective letter)
        = (((column - (column - 1) % 26 - 1) / 26).toNat * 26 +
            (((column - 1) % 26).toNat + 1)) * 26 ^ letter.length
          + from_bijective letter := by ring
      _ = column.toNat * 26 ^ letter.length + from_bijective letter := by
          rw [hdigit]
  · next hpos =>
    have : column.toNat = 0 := by omega
    simp [this]
termination_by column.toNat
decreasing_by exact column_to_letter_measure column (by assumption)

lemma column_to_letter_go_alpha (column : Int) (letter : List Char)
    (h : letter.all is_upper_alpha = true) :
    (column_to_letter_go column letter).all is_upper_alpha = true := by
  rw [column_to_letter_go]
  split
  · next hpos =>
    apply column_to_letter_go_alpha
    have hch := char_code_letter ((column - 1) % 26).toNat (by omega)
    simp only [List.all_cons, h, Bool.and_true, is_upper_alpha, hch,
      Bool.and_eq_true, decide_eq_true_eq]
    omega
  · exact h
termination_by column.toNat
decreasing_by exact column_to_letter_measure column (by assumption)

/-- C10: for every integer `n ≥ 1`, `column_to_letter n` is a string of
letters `A`–`Z` which, read back as a bijective base-26 numeral, yields `n`
(so 1 ↦ "A", 26 ↦ "Z", 27 ↦ "AA", 702 ↦ "ZZ", 703 ↦ "AAA"); for every
`n ≤ 0` it returns the empty string. -/
theorem column_to_letter_bijective_base26 (n : Int) :
    (1 ≤ n →
      ((column_to_letter n).data.all is_upper_alpha = true ∧
        from_bijective (column_to_letter n).data = n.toNat)) ∧
      (n ≤ 0 → column_to_letter n = "") := by
  constructor
  · intro h1
    constructor
    · exact column_to_letter_go_alpha n [] rfl
    · have := column_to_letter_go_value n [] (by omega)
      simpa [column_to_letter, from_bijective] using this
  · intro h0
    have : ¬ (0 : Int) < n := by omega
    simp [column_to_letter, column_to_letter_go, this]

/-- Witness for C10: at the concrete inputs 27 and −1 the theorem yields
that `column_to_letter 27` reads back as 27 (it is "AA") and that a
non-positive argument gives the empty string. -/
theorem column_to_letter_bijective_base26_witness :
    ((1 : Int) ≤ 27 ∧ (-1 : Int) ≤ 0) ∧
      ((column_to_letter 27).data.all is_upper_alpha = true ∧
        from_bijective (column_to_letter 27).data = (27 : Int).toNat) ∧
      column_to_letter (-1) = "" :=
  ⟨⟨by decide, by decide⟩,
    (column_to_letter_bijective_base26 27).1 (by decide),
    (column_to_letter_bijective_base26 (-1)).2 (by decide)⟩
